import Mathlib

/-!
Verification development for the Solution Verification & Feedback Engine
and the Retrieval-Augmented Assistant of the SysCode repository.

The repository ships the frontend client (`services/frontend/src/api.ts`)
and the knowledge-base documents; the backend engine itself (component
matcher, expectation analyzer, scorer, LLM enhancement adapter, RAG
assistant) is described by the specification.  Definitions for the engine
below are therefore modelled from the spec, while the API client types
and transport behaviour are embedded directly from `api.ts`.

Text is represented as `List Char`; machine strings from the source are
converted with `String.toList` where concrete values are needed.
-/

/-- Modelled from the spec (section 4.1): one step of normalization, mapping
whitespace characters to a plain space and lowercasing everything else. -/
def normalizeChar (c : Char) : Char :=
  if c.isWhitespace then ' ' else c.toLower

/-- Modelled from the spec (section 4.1): characters kept after stripping
punctuation — alphanumerics and spaces survive. -/
def keepChar (c : Char) : Bool :=
  c.isAlphanum || c == ' '

/-- Modelled from the spec (section 4.1): collapse runs of spaces into a
single space. -/
def collapseSpaces : List Char → List Char
  | [] => []
  | [c] => [c]
  | a :: b :: rest =>
    if a == ' ' && b == ' ' then collapseSpaces (b :: rest)
    else a :: collapseSpaces (b :: rest)

/-- Modelled from the spec (section 4.1): normalize a learner string —
lowercase, strip punctuation, collapse whitespace. -/
def normalizeText (s : List Char) : List Char :=
  collapseSpaces ((s.map normalizeChar).filter keepChar)

/-- Does the second list start with the first one? -/
def leadsWith : List Char → List Char → Bool
  | [], _ => true
  | _ :: _, [] => false
  | a :: as, b :: bs => (a == b) && leadsWith as bs

/-- Does the first list occur contiguously inside the second one? -/
def occursIn (needle : List Char) : List Char → Bool
  | [] => leadsWith needle []
  | c :: rest => leadsWith needle (c :: rest) || occursIn needle rest

theorem leadsWith_refl (l : List Char) : leadsWith l l = true := by
  induction l with
  | nil => rfl
  | cons a as ih => simp [leadsWith, ih]

theorem leadsWith_append (n h t : List Char) (hw : leadsWith n h = true) :
    leadsWith n (h ++ t) = true := by
  induction n generalizing h with
  | nil => rfl
  | cons a as ih =>
    cases h with
    | nil => simp [leadsWith] at hw
    | cons b bs =>
      simp only [leadsWith, Bool.and_eq_true] at hw
      simp only [List.cons_append, leadsWith, Bool.and_eq_true]
      exact ⟨hw.1, ih bs hw.2⟩

theorem occursIn_of_leadsWith (n h : List Char) (hw : leadsWith n h = true) :
    occursIn n h = true := by
  cases h with
  | nil => simpa [occursIn] using hw
  | cons c rest => simp [occursIn, hw]

theorem occursIn_self (l : List Char) : occursIn l l = true :=
  occursIn_of_leadsWith l l (leadsWith_refl l)

theorem leadsWith_nil_needle (n : List Char) (hw : leadsWith n [] = true) :
    n = [] := by
  cases n with
  | nil => rfl
  | cons a as => simp [leadsWith] at hw

theorem occursIn_append_right (n h t : List Char) (hw : occursIn n h = true) :
    occursIn n (h ++ t) = true := by
  induction h with
  | nil =>
    simp only [occursIn] at hw
    have hn : n = [] := leadsWith_nil_needle n hw
    subst hn
    cases t with
    | nil => rfl
    | cons c rest => simp [occursIn, leadsWith]
  | cons c rest ih =>
    simp only [occursIn, Bool.or_eq_true] at hw
    rcases hw with hw | hw
    · have : leadsWith n ((c :: rest) ++ t) = true := leadsWith_append n (c :: rest) t hw
      simpa [occursIn, List.cons_append] using Or.inl this
    · have := ih hw
      simp [occursIn, List.cons_append, this]

/-- Modelled from the spec (section 3): an expected component of a problem,
a canonical name possibly with declared synonyms. -/
structure ExpectedComponent where
  name : List Char
  synonyms : List (List Char)
deriving DecidableEq

/-- Modelled from the spec (section 3): a required-consideration statement
with its associated keyword/synonym set. -/
structure Expectation where
  text : List Char
  keywords : List (List Char)
deriving DecidableEq

/-- Modelled from the spec (section 3): a problem, read-only reference data. -/
structure Problem where
  id : String
  title : String
  description : String
  tags : List String
  difficulty : String
  expected_components : List ExpectedComponent
  expectations : List Expectation
deriving DecidableEq

/-- Embedded from `api.ts` (interface UserSolution) and the spec (section 3):
a learner submission. -/
structure UserSolution where
  architecture_components : List (List Char)
  design_choices : List (List Char)
  explanation : Option (List Char)
deriving DecidableEq

/-- Modelled from the spec (section 4.1): the surface forms under which an
expected component may be recognised — its canonical name and its synonyms. -/
def surfaceForms (c : ExpectedComponent) : List (List Char) :=
  c.name :: c.synonyms

/-- Modelled from the spec (section 4.1): a single learner entry hits an
expected component when some surface form is contained in the normalized
entry. -/
def entryHits (e : List Char) (c : ExpectedComponent) : Bool :=
  (surfaceForms c).any (fun s => occursIn (normalizeText s) (normalizeText e))

/-- Modelled from the spec (section 4.1): an expected component is matched
when some learner entry hits it (first match wins affects only which entry
is credited, not the matched set). -/
def componentHit (learner : List (List Char)) (c : ExpectedComponent) : Bool :=
  learner.any (fun e => entryHits e c)

/-- Modelled from the spec (section 4.1): expected components found in the
learner list. -/
def matchedComponents (expected : List ExpectedComponent)
    (learner : List (List Char)) : List ExpectedComponent :=
  expected.filter (componentHit learner)

/-- Modelled from the spec (section 4.1): expected components with no hit. -/
def missingComponents (expected : List ExpectedComponent)
    (learner : List (List Char)) : List ExpectedComponent :=
  expected.filter (fun c => !componentHit learner c)

/-- Modelled from the spec (section 4.1): learner entries that matched no
expected component, recorded verbatim. -/
def extraComponents (expected : List ExpectedComponent)
    (learner : List (List Char)) : List (List Char) :=
  learner.filter (fun e => !(expected.any (fun c => entryHits e c)))

/-- Modelled from the spec (section 4.2): the texts feeding the expectation
analyzer — all design choices plus the optional explanation. -/
def solutionTexts (s : UserSolution) : List (List Char) :=
  s.design_choices ++ (match s.explanation with
    | some e => [e]
    | none => [])

/-- Modelled from the spec (section 4.2): concatenate the learner texts into
one normalized blob (each piece normalized, separated by a space). -/
def blobOf (texts : List (List Char)) : List Char :=
  (texts.map (fun t => normalizeText t ++ [' '])).flatten

/-- Modelled from the spec (section 4.2): an expectation is addressed when
one of its keywords occurs as a substring of the blob. -/
def expectationHit (blob : List Char) (e : Expectation) : Bool :=
  e.keywords.any (fun k => occursIn (normalizeText k) blob)

/-- Modelled from the spec (section 4.2): expectations addressed by the blob. -/
def addressedExpectations (exps : List Expectation) (blob : List Char) :
    List Expectation :=
  exps.filter (expectationHit blob)

/-- Modelled from the spec (section 4.2): expectations not addressed. -/
def missingExpectations (exps : List Expectation) (blob : List Char) :
    List Expectation :=
  exps.filter (fun e => !expectationHit blob e)

/-- Round a / b to the nearest integer (half rounds up); 0 when b = 0. -/
def roundDiv (a b : Nat) : Nat :=
  (2 * a + b) / (2 * b)

/-- Modelled from the spec (sections 4.1, 4.2): percentage sub-score
100 * num / den rounded to nearest, defined as 100 when den = 0. -/
def ratioScore (num den : Nat) : Nat :=
  if den = 0 then 100 else roundDiv (100 * num) den

/-- Modelled from the spec (section 4.1): the Component Matcher sub-score. -/
def componentScore (expected : List ExpectedComponent)
    (learner : List (List Char)) : Nat :=
  ratioScore (matchedComponents expected learner).length expected.length

/-- Modelled from the spec (section 4.2): the Expectation Analyzer sub-score. -/
def expectationScore (exps : List Expectation) (blob : List Char) : Nat :=
  ratioScore (addressedExpectations exps blob).length exps.length

/-- Modelled from the spec (section 4.3): the 60:40 weighted overall score,
rounded to nearest and clamped to [0, 100]. -/
def overallOf (cs es : Nat) : Nat :=
  min 100 (roundDiv (6 * cs + 4 * es) 10)

/-- Modelled from the spec (section 4.3): fixed cap on the number of
recommendations. -/
def maxRecommendations : Nat := 5

/-- Modelled from the spec (section 4.3): templated suggestion naming a
missing expected component and its typical role. -/
def componentRec (c : ExpectedComponent) : List Char :=
  "Consider adding ".toList ++ c.name ++ " to your architecture.".toList

/-- Modelled from the spec (section 4.3): templated suggestion naming a
missing consideration. -/
def expectationRec (e : Expectation) : List Char :=
  "Address this consideration: ".toList ++ e.text

/-- Modelled from the spec (section 4.3): recommendations generated from the
missing lists, components first, capped at the fixed maximum. -/
def recommendationsFor (missingC : List ExpectedComponent)
    (missingE : List Expectation) : List (List Char) :=
  (missingC.map componentRec ++ missingE.map expectationRec).take maxRecommendations

/-- Embedded from `api.ts` (VerificationResult.component_analysis). -/
structure ComponentAnalysis where
  score : Nat
  matched_components : List (List Char)
  missing_components : List (List Char)
  extra_components : List (List Char)
deriving DecidableEq

/-- Embedded from `api.ts` (VerificationResult.design_choices_analysis). -/
structure DesignChoicesAnalysis where
  score : Nat
  addressed_expectations : List (List Char)
  missing_expectations : List (List Char)
deriving DecidableEq

/-- Embedded from `api.ts` (VerificationResult.llm_enhancement): the
structured critique delivered by a successful enhancement call. -/
structure EnrichedCritique where
  llm_enhanced_score : Nat
  llm_feedback : List Char
  strengths : List (List Char)
  improvements : List (List Char)
  advanced_concepts : List (List Char)
  industry_relevance : List Char
deriving DecidableEq

/-- Modelled from the spec (section 4.4): the enhancement field either holds
the structured critique or an explicit error marker. -/
inductive LLMEnhancement where
  | enriched (c : EnrichedCritique)
  | errorMarker (message : List Char)
deriving DecidableEq

/-- Embedded from `api.ts` (interface VerificationResult). -/
structure VerificationResult where
  problem_id : String
  overall_score : Nat
  max_score : Nat
  component_analysis : ComponentAnalysis
  design_choices_analysis : DesignChoicesAnalysis
  recommendations : List (List Char)
  llm_enhancement : Option LLMEnhancement
  follow_up_questions : Option (List (List Char))
deriving DecidableEq

/-- Modelled from the spec (sections 4.1 to 4.3): the deterministic
verification pipeline — matcher and analyzer in parallel, then scorer and
recommendation generator. -/
def evaluate (p : Problem) (s : UserSolution) : VerificationResult :=
  let mc := matchedComponents p.expected_components s.architecture_components
  let sc := missingComponents p.expected_components s.architecture_components
  let blob := blobOf (solutionTexts s)
  let ae := addressedExpectations p.expectations blob
  let me := missingExpectations p.expectations blob
  let cs := componentScore p.expected_components s.architecture_components
  let es := expectationScore p.expectations blob
  { problem_id := p.id
    overall_score := overallOf cs es
    max_score := 100
    component_analysis :=
      { score := cs
        matched_components := mc.map (fun c => c.name)
        missing_components := sc.map (fun c => c.name)
        extra_components := extraComponents p.expected_components s.architecture_components }
    design_choices_analysis :=
      { score := es
        addressed_expectations := ae.map (fun e => e.text)
        missing_expectations := me.map (fun e => e.text) }
    recommendations := recommendationsFor sc me
    llm_enhancement := none
    follow_up_questions := none }

/-- Modelled from the spec (section 7): error kinds of the verify operation. -/
inductive VerifyError where
  | notFound
  | invalidSubmission
deriving DecidableEq

/-- Modelled from the spec (sections 6, 7): the verify operation; an empty
component list is rejected as InvalidSubmission before any scoring. -/
def verify (p : Problem) (s : UserSolution) : Except VerifyError VerificationResult :=
  if s.architecture_components.isEmpty then .error .invalidSubmission
  else .ok (evaluate p s)

/-- Modelled from the spec (section 4.4): outcome of a configured
generation-service call — structured critique or failure. -/
inductive GenOutcome where
  | success (c : EnrichedCritique)
  | failure (message : List Char)
deriving DecidableEq

/-- Modelled from the spec (section 4.4): the LLM Enhancement Adapter.
`none` models the unconfigured service (adapter skipped); a configured call
attaches the critique on success and an error marker on failure, never
raising and never touching the deterministic fields. -/
def enhance (svc : Option GenOutcome) (base : VerificationResult) :
    VerificationResult :=
  match svc with
  | none => base
  | some (.success c) => { base with llm_enhancement := some (.enriched c) }
  | some (.failure m) => { base with llm_enhancement := some (.errorMarker m) }

/-- States of the enhancement field as the spec describes them: absent when
the service is unconfigured, the critique on success, an explicit error
marker on failure. -/
def specEnhancementField (svc : Option GenOutcome) : Option LLMEnhancement :=
  match svc with
  | none => none
  | some (.success c) => some (.enriched c)
  | some (.failure m) => some (.errorMarker m)

/-- Modelled from the spec (section 4.5): the outcome of the optional
generation step for an assistant question. -/
inductive GenAttempt where
  | unconfigured
  | failed (message : List Char)
  | success (answer : List Char)
deriving DecidableEq

/-- Did the generation step succeed? -/
def generationSucceeded : GenAttempt → Bool
  | .success _ => true
  | _ => false

/-- Modelled from the spec (section 4.5): the fixed retrieval-similarity
threshold separating high from medium confidence. -/
def simThreshold : ℚ := 7 / 10

/-- Modelled from the spec (section 4.5): the confidence label — high when
generation succeeded and the top similarity exceeds the threshold, medium
when generation succeeded otherwise, low on the fallback path. -/
def confidenceFor (gen : GenAttempt) (topSim : ℚ) : String :=
  match gen with
  | .success _ => if simThreshold < topSim then "high" else "medium"
  | _ => "low"

/-- Embedded from `api.ts` (interface AssistantResponse). -/
structure AssistantResponse where
  question : String
  answer : List Char
  related_concepts : List String
  confidence : String
deriving DecidableEq

/-- Modelled from the spec (section 4.5): assembling the assistant response —
the generated answer when generation succeeded, the extractive/templated
fallback text otherwise, with the confidence label of `confidenceFor`. -/
def askModel (question : String) (gen : GenAttempt) (topSim : ℚ)
    (tags : List String) (fallbackText : List Char) : AssistantResponse :=
  { question := question
    answer := match gen with
      | .success a => a
      | _ => fallbackText
    related_concepts := tags
    confidence := confidenceFor gen topSim }

/-- Type tags of the TypeScript record fields declared in `api.ts`. -/
inductive TsTy where
  | bool
  | str
  | num
  | any
deriving DecidableEq

/-- Embedded from `api.ts` line 163: the declared return record of
`APIClient.getAssistantStatus`, as a field-name-to-type schema —
`Promise<(llm_available: boolean, openai_configured: boolean, features: any)>`
written with braces in the source. -/
def assistantStatusFields : List (String × TsTy) :=
  [("llm_available", .bool), ("openai_configured", .bool), ("features", .any)]

/-- An HTTP response as the API client observes it: the ok flag and the
JSON-decoded body delivered by the transport. -/
structure HttpResponse (α : Type) where
  ok : Bool
  body : α

/-- Embedded from `api.ts` lines 93 to 107 (APIClient.verifySolution): throw
on a non-ok response, otherwise return the JSON-decoded body. -/
def verifySolution (r : HttpResponse VerificationResult) :
    Except String VerificationResult :=
  if r.ok then .ok r.body else .error "Failed to verify solution"

theorem roundDiv_hundred_le {m n : Nat} (hm : m ≤ n) (hn : 0 < n) :
    roundDiv (100 * m) n ≤ 100 := by
  unfold roundDiv
  have h2n : 0 < 2 * n := by omega
  have hlt : 2 * (100 * m) + n < 101 * (2 * n) := by omega
  have := (Nat.div_lt_iff_lt_mul h2n).mpr hlt
  omega

theorem ratioScore_le_100 {num den : Nat} (h : num ≤ den) :
    ratioScore num den ≤ 100 := by
  unfold ratioScore
  split
  · exact le_rfl
  · exact roundDiv_hundred_le h (Nat.pos_of_ne_zero (by assumption))

theorem componentScore_le_100 (expected : List ExpectedComponent)
    (learner : List (List Char)) : componentScore expected learner ≤ 100 :=
  ratioScore_le_100 (List.length_filter_le _ _)

theorem expectationScore_le_100 (exps : List Expectation) (blob : List Char) :
    expectationScore exps blob ≤ 100 :=
  ratioScore_le_100 (List.length_filter_le _ _)

theorem roundDiv_hundred_self {n : Nat} (hn : 0 < n) :
    roundDiv (100 * n) n = 100 := by
  unfold roundDiv
  have h : 2 * (100 * n) + n = n + 2 * n * 100 := by ring
  rw [h, Nat.add_mul_div_left _ _ (by omega : 0 < 2 * n),
    Nat.div_eq_of_lt (by omega : n < 2 * n)]

theorem roundDiv_zero_left {n : Nat} (hn : 0 < n) : roundDiv 0 n = 0 := by
  unfold roundDiv
  rw [Nat.mul_zero, Nat.zero_add]
  exact Nat.div_eq_of_lt (by omega)

theorem roundDiv_le_roundDiv {a b n : Nat} (h : a ≤ b) :
    roundDiv a n ≤ roundDiv b n :=
  Nat.div_le_div_right (by omega)

theorem overallOf_eq_round {cs es : Nat} (h1 : cs ≤ 100) (h2 : es ≤ 100) :
    overallOf cs es = roundDiv (6 * cs + 4 * es) 10 := by
  have hle : roundDiv (6 * cs + 4 * es) 10 ≤ 100 := by
    unfold roundDiv
    have hlt : 2 * (6 * cs + 4 * es) + 10 < 101 * (2 * 10) := by omega
    have := (Nat.div_lt_iff_lt_mul (by omega : (0 : Nat) < 2 * 10)).mpr hlt
    omega
  exact Nat.min_eq_right hle

theorem filter_partition {α : Type} [DecidableEq α] (p : α → Bool) (l : List α)
    (h : l.Nodup) :
    (l.filter p).Disjoint (l.filter (fun a => !p a)) ∧
    List.Perm (l.filter p ++ l.filter (fun a => !p a)) l ∧
    ∀ a ∈ l, (l.filter p).count a + (l.filter (fun a => !p a)).count a = 1 := by
  have hperm := List.filter_append_perm p l
  refine ⟨?_, hperm, ?_⟩
  · intro a h1 h2
    rw [List.mem_filter] at h1 h2
    rw [h1.2] at h2
    simp at h2
  · intro a ha
    have hc := hperm.count_eq a
    rw [List.count_append] at hc
    rw [hc]
    exact List.count_eq_one_of_mem h ha

theorem blobOf_append (xs ys : List (List Char)) :
    blobOf (xs ++ ys) = blobOf xs ++ blobOf ys := by
  simp [blobOf]

theorem expectationHit_append (b t : List Char) (e : Expectation)
    (h : expectationHit b e = true) : expectationHit (b ++ t) e = true := by
  simp only [expectationHit, List.any_eq_true] at h ⊢
  obtain ⟨k, hk, hocc⟩ := h
  exact ⟨k, hk, occursIn_append_right _ _ _ hocc⟩

theorem expectationScore_append (exps : List Expectation) (b t : List Char) :
    expectationScore exps b ≤ expectationScore exps (b ++ t) := by
  have hsub : List.Sublist (addressedExpectations exps b) (addressedExpectations exps (b ++ t)) :=
    List.monotone_filter_right exps (fun e he => expectationHit_append b t e he)
  have hlen := hsub.length_le
  unfold expectationScore ratioScore
  by_cases h0 : exps.length = 0
  · simp [h0]
  · rw [if_neg h0, if_neg h0]
    exact roundDiv_le_roundDiv (Nat.mul_le_mul_left 100 hlen)

/-- A concrete problem used to instantiate theorems with hypotheses. -/
def sampleProblem : Problem :=
  { id := "p1"
    title := "URL Shortener"
    description := "Design a URL shortening service."
    tags := ["web"]
    difficulty := "beginner"
    expected_components :=
      [{ name := "load balancer".toList, synonyms := ["lb".toList] },
       { name := "database".toList, synonyms := [] }]
    expectations :=
      [{ text := "handle cache invalidation".toList, keywords := ["cache".toList] }] }

/-- A concrete submission with an empty component list. -/
def emptySolution : UserSolution :=
  { architecture_components := []
    design_choices := []
    explanation := none }

/-- A concrete deterministic verification result for transport theorems. -/
def sampleResult : VerificationResult :=
  { problem_id := "p1"
    overall_score := 50
    max_score := 100
    component_analysis :=
      { score := 50
        matched_components := []
        missing_components := []
        extra_components := [] }
    design_choices_analysis :=
      { score := 50
        addressed_expectations := []
        missing_expectations := [] }
    recommendations := []
    llm_enhancement := none
    follow_up_questions := none }

/-- Claim C1: for every verification of a UserSolution against a Problem,
the resulting overall_score is an integer in [0, 100] (it is a Nat, so
nonnegative by construction) and equals the 60:40 weighted combination of
the component and expectation sub-scores, rounded to the nearest integer;
the clamp to [0, 100] is satisfied. -/
theorem claim1_overall_score_formula (p : Problem) (s : UserSolution) :
    (evaluate p s).overall_score ≤ 100 ∧
    (evaluate p s).overall_score =
      roundDiv (6 * (evaluate p s).component_analysis.score +
        4 * (evaluate p s).design_choices_analysis.score) 10 := by
  have hcs := componentScore_le_100 p.expected_components s.architecture_components
  have hes := expectationScore_le_100 p.expectations (blobOf (solutionTexts s))
  constructor
  · exact Nat.min_le_left _ _
  · exact overallOf_eq_round hcs hes

/-- Claim C2: for every learner component list and every problem with
duplicate-free expected components, the matched and missing lists of the
Component Matcher are disjoint, together they are a permutation of the
expected components, and every expected component is counted exactly once
across the two; the same partition holds for the addressed and missing
lists of the Expectation Analyzer. -/
theorem claim2_match_partition
    (expected : List ExpectedComponent) (learner : List (List Char))
    (exps : List Expectation) (blob : List Char)
    (hC : expected.Nodup) (hE : exps.Nodup) :
    (matchedComponents expected learner).Disjoint (missingComponents expected learner) ∧
    List.Perm (matchedComponents expected learner ++ missingComponents expected learner) expected ∧
    (∀ c ∈ expected,
      (matchedComponents expected learner).count c +
        (missingComponents expected learner).count c = 1) ∧
    (addressedExpectations exps blob).Disjoint (missingExpectations exps blob) ∧
    List.Perm (addressedExpectations exps blob ++ missingExpectations exps blob) exps ∧
    (∀ e ∈ exps,
      (addressedExpectations exps blob).count e +
        (missingExpectations exps blob).count e = 1) := by
  obtain ⟨d1, p1, c1⟩ := filter_partition (componentHit learner) expected hC
  obtain ⟨d2, p2, c2⟩ := filter_partition (expectationHit blob) exps hE
  exact ⟨d1, p1, c1, d2, p2, c2⟩

/-- Witness for claim C2 at a concrete input: with one expected component
and an empty learner list, the component is counted exactly once across the
matched and missing lists. -/
theorem claim2_match_partition_witness :
    (matchedComponents sampleProblem.expected_components []).count
        { name := "database".toList, synonyms := [] } +
      (missingComponents sampleProblem.expected_components []).count
        { name := "database".toList, synonyms := [] } = 1 :=
  (claim2_match_partition sampleProblem.expected_components [] [] []
      (by decide) List.nodup_nil).2.2.1
    { name := "database".toList, synonyms := [] } (by decide)

/-- Claim C3: for every deterministic verification result, the LLM
Enhancement Adapter never changes any deterministic field — the overall
score and all analysis fields reach the caller unchanged — and the
llm_enhancement field is absent when the generation service is
unconfigured, carries the structured critique on success, and carries an
explicit error marker when the configured call fails; the adapter is a
total function, so no enhancement failure ever aborts the verification. -/
theorem claim3_enhancement_preserves_result
    (svc : Option GenOutcome) (p : Problem) (s : UserSolution) :
    (enhance svc (evaluate p s)).overall_score = (evaluate p s).overall_score ∧
    (enhance svc (evaluate p s)).problem_id = (evaluate p s).problem_id ∧
    (enhance svc (evaluate p s)).max_score = (evaluate p s).max_score ∧
    (enhance svc (evaluate p s)).component_analysis = (evaluate p s).component_analysis ∧
    (enhance svc (evaluate p s)).design_choices_analysis = (evaluate p s).design_choices_analysis ∧
    (enhance svc (evaluate p s)).recommendations = (evaluate p s).recommendations ∧
    (enhance svc (evaluate p s)).llm_enhancement = specEnhancementField svc := by
  rcases svc with _ | o
  · exact ⟨rfl, rfl, rfl, rfl, rfl, rfl, rfl⟩
  · rcases o with c | m
    · exact ⟨rfl, rfl, rfl, rfl, rfl, rfl, rfl⟩
    · exact ⟨rfl, rfl, rfl, rfl, rfl, rfl, rfl⟩

/-- Claim C5: for fixed expectations, the Expectation Analyzer sub-score is
monotone in the learner text: appending further design-choice texts extends
the concatenated normalized blob and never decreases the sub-score, where
an expectation is addressed exactly when one of its keywords occurs as a
substring of the blob. -/
theorem claim5_expectation_score_monotone
    (exps : List Expectation) (texts more : List (List Char)) :
    expectationScore exps (blobOf texts) ≤
      expectationScore exps (blobOf (texts ++ more)) := by
  rw [blobOf_append]
  exact expectationScore_append exps (blobOf texts) (blobOf more)

/-- Claim C6: a submission whose architecture_components list is empty is
rejected by the verify operation with an InvalidSubmission client error
before any scoring, so no VerificationResult is produced. -/
theorem claim6_empty_submission_rejected (p : Problem) (s : UserSolution)
    (h : s.architecture_components = []) :
    verify p s = .error .invalidSubmission := by
  simp [verify, h]

/-- Witness for claim C6 at a concrete input: the sample problem with the
empty submission is rejected as InvalidSubmission. -/
theorem claim6_empty_submission_rejected_witness :
    verify sampleProblem emptySolution = .error .invalidSubmission :=
  claim6_empty_submission_rejected sampleProblem emptySolution rfl

/-- Counterexample to claim C4 as stated: when the expected set and the
learner list are both empty, the Component Matcher sub-score is 100 (the
expected-empty clause), not 0 as the empty-learner clause of the claim
demands. -/
theorem claim4_counterexample :
    componentScore ([] : List ExpectedComponent) ([] : List (List Char)) = 100 ∧
    componentScore ([] : List ExpectedComponent) ([] : List (List Char)) ≠ 0 := by
  decide

/-- Claim C4 (amended): the Component Matcher sub-score equals
100 * matched / expected rounded to nearest whenever the expected set is
nonempty; it is 100 when every expected component has a learner entry equal
to its canonical name up to casing, punctuation and whitespace variation;
it is 100 when the expected set is empty; and when the learner list is
empty every expected component is reported missing and, provided the
expected set is nonempty, the sub-score is 0. -/
theorem claim4_component_score_cases
    (expected : List ExpectedComponent) (learner : List (List Char)) :
    (expected ≠ [] →
      componentScore expected learner =
        roundDiv (100 * (matchedComponents expected learner).length) expected.length) ∧
    ((∀ c ∈ expected, ∃ e ∈ learner, normalizeText e = normalizeText c.name) →
      componentScore expected learner = 100) ∧
    (expected = [] → componentScore expected learner = 100) ∧
    (learner = [] →
      missingComponents expected learner = expected ∧
      (expected ≠ [] → componentScore expected learner = 0)) := by
  refine ⟨?_, ?_, ?_, ?_⟩
  · intro hne
    have h0 : expected.length ≠ 0 := fun h => hne (List.length_eq_zero.mp h)
    unfold componentScore ratioScore
    rw [if_neg h0]
  · intro hexact
    have hall : ∀ c ∈ expected, componentHit learner c = true := by
      intro c hc
      obtain ⟨e, he, heq⟩ := hexact c hc
      simp only [componentHit, List.any_eq_true]
      refine ⟨e, he, ?_⟩
      simp only [entryHits, surfaceForms, List.any_eq_true]
      refine ⟨c.name, List.mem_cons_self _ _, ?_⟩
      rw [heq]
      exact occursIn_self _
    have hm : matchedComponents expected learner = expected :=
      List.filter_eq_self.mpr hall
    unfold componentScore
    rw [hm]
    unfold ratioScore
    by_cases h0 : expected.length = 0
    · rw [if_pos h0]
    · rw [if_neg h0]
      exact roundDiv_hundred_self (Nat.pos_of_ne_zero h0)
  · intro h
    subst h
    rfl
  · intro h
    subst h
    constructor
    · apply List.filter_eq_self.mpr
      intro c hc
      simp [componentHit]
    · intro hne
      have h0 : expected.length ≠ 0 := fun h => hne (List.length_eq_zero.mp h)
      have hm : matchedComponents expected [] = [] := by
        apply List.filter_eq_nil_iff.mpr
        intro c hc
        simp [componentHit]
      unfold componentScore
      rw [hm]
      unfold ratioScore
      rw [if_neg h0]
      exact roundDiv_zero_left (Nat.pos_of_ne_zero h0)

/-- Witness for claim C4 at concrete inputs: for the sample problem, a
learner list naming both expected components up to casing scores 100, and
the empty learner list scores 0 with both components missing. -/
theorem claim4_component_score_cases_witness :
    componentScore sampleProblem.expected_components
      ["Load  Balancer!".toList, "DataBase".toList] = 100 ∧
    componentScore sampleProblem.expected_components [] = 0 :=
  ⟨(claim4_component_score_cases sampleProblem.expected_components
      ["Load  Balancer!".toList, "DataBase".toList]).2.1 (by decide),
    ((claim4_component_score_cases sampleProblem.expected_components []).2.2.2
      rfl).2 (by decide)⟩

/-- Claim C7: for every assistant question, the confidence label of the
assembled AssistantResponse is high exactly when generation succeeded and
the top retrieval similarity exceeds the fixed threshold, medium exactly
when generation succeeded but the similarity was at or below the threshold,
and low exactly when the answer fell back because the generation service
was unconfigured or the call failed. -/
theorem claim7_confidence_label (q : String) (gen : GenAttempt) (sim : ℚ)
    (tags : List String) (fb : List Char) :
    ((askModel q gen sim tags fb).confidence = "high" ↔
      generationSucceeded gen = true ∧ simThreshold < sim) ∧
    ((askModel q gen sim tags fb).confidence = "medium" ↔
      generationSucceeded gen = true ∧ sim ≤ simThreshold) ∧
    ((askModel q gen sim tags fb).confidence = "low" ↔
      generationSucceeded gen = false) := by
  rcases gen with _ | m | a
  · refine ⟨?_, ?_, ?_⟩ <;> simp [askModel, confidenceFor, generationSucceeded]
  · refine ⟨?_, ?_, ?_⟩ <;> simp [askModel, confidenceFor, generationSucceeded]
  · by_cases h : simThreshold < sim
    · refine ⟨?_, ?_, ?_⟩ <;>
        simp [askModel, confidenceFor, generationSucceeded, h, not_lt.mp, le_of_lt]
    · have hle : sim ≤ simThreshold := not_lt.mp h
      refine ⟨?_, ?_, ?_⟩ <;>
        simp [askModel, confidenceFor, generationSucceeded, h, hle]

/-- Witness for claim C7 at a concrete input: a successful generation with
top similarity 1 (above the 0.7 threshold) is labelled high. -/
theorem claim7_confidence_label_witness :
    (askModel "What is load balancing?" (.success "answer".toList) 1 [] []).confidence
      = "high" :=
  (claim7_confidence_label "What is load balancing?" (.success "answer".toList)
      1 [] []).1.mpr ⟨rfl, by norm_num [simThreshold]⟩

/-- Claim C8: for every verification result, the recommendations list is
exactly the first maxRecommendations entries of the list holding one
templated suggestion per missing expected component followed by one per
missing expectation — so it contains one suggestion per missing item up to
the cap, every component-derived recommendation precedes every
expectation-derived one, and its length never exceeds the fixed maximum. -/
theorem claim8_recommendations_shape (p : Problem) (s : UserSolution) :
    (evaluate p s).recommendations =
      ((missingComponents p.expected_components s.architecture_components).map componentRec ++
        (missingExpectations p.expectations (blobOf (solutionTexts s))).map expectationRec).take
        maxRecommendations ∧
    (evaluate p s).recommendations.length ≤ maxRecommendations := by
  constructor
  · rfl
  · show (List.take maxRecommendations _).length ≤ maxRecommendations
    rw [List.length_take]
    exact Nat.min_le_left _ _

/-- Counterexample to claim C9 as stated: the record returned by
APIClient.getAssistantStatus declares no field named generation_available. -/
theorem claim9_counterexample :
    ¬ ("generation_available" ∈ assistantStatusFields.map Prod.fst) := by
  decide

/-- Claim C9 (amended): the assistant_status operation exposed to
collaborators returns a record containing boolean fields named
llm_available and openai_configured together with a features object. -/
theorem claim9_status_fields :
    ("llm_available", TsTy.bool) ∈ assistantStatusFields ∧
    ("openai_configured", TsTy.bool) ∈ assistantStatusFields ∧
    ("features", TsTy.any) ∈ assistantStatusFields := by
  decide

/-- Claim C10: for every HTTP response observed by APIClient.verifySolution,
a non-ok response makes the method throw — yielding no VerificationResult —
and an ok response returns exactly the JSON-decoded response body, so the
caller never observes a partially constructed or default result on
transport failure. -/
theorem claim10_verify_transport (r : HttpResponse VerificationResult) :
    (r.ok = false → verifySolution r = .error "Failed to verify solution") ∧
    (r.ok = true → verifySolution r = .ok r.body) := by
  constructor <;> intro h <;> simp [verifySolution, h]

/-- Witness for claim C10 at concrete inputs: a non-ok response around the
sample result throws, and an ok response returns the body unchanged. -/
theorem claim10_verify_transport_witness :
    verifySolution { ok := false, body := sampleResult } = .error "Failed to verify solution" ∧
    verifySolution { ok := true, body := sampleResult } = .ok sampleResult :=
  ⟨(claim10_verify_transport { ok := false, body := sampleResult }).1 rfl,
    (claim10_verify_transport { ok := true, body := sampleResult }).2 rfl⟩
